import Mathlib

/-!
Shallow embedding of the asynchronous delivery core of the `dry` repository
(package `async`): the queued `AsyncWriter` over a blocking sink
(`src/async/wrier.go`), the `messageBus` fan-out dispatcher
(`src/async/bus.go`), and the lighter `eventBusImpl` sibling
(`src/unnamed/part_002`).

Machine details of Go (channels, goroutines, `sync.Pool`) are embedded as
explicit state: a buffered channel of capacity `c` is a `List` together with
the capacity, a non-blocking send succeeds exactly when the list is shorter
than the capacity, and the single consumer goroutine of a writer or handler
is a step function on the state.  Byte slices are `List Nat`.
-/

/-- Bytes handed to `Write` and to the sink: a byte slice, `[]byte`. -/
abbrev Msg : Type := List Nat

/-- The error values of package `async` (`src/async/wrier.go` lines 26-36,
`src/async/bus.go` lines 15-19), plus constructors for errors produced by a
sink (`sinkErr`) and for the `fmt.Errorf` value built by
`eventBusImpl.Publish` (`evQueueFull topic`). -/
inductive GoError where
  | errInternal : GoError
  | errClosed : GoError
  | errInvalidArgument : GoError
  | errQueueFull : GoError
  | errWrongType : GoError
  | errNoHandlerFound : GoError
  | errTopicNotFound : GoError
  | errBusQueueFull : GoError
  | sinkErr : Nat → GoError
  | evQueueFull : String → GoError
  deriving DecidableEq, Repr

/-- State of one `AsyncWriter` (`src/async/wrier.go` lines 38-46) together
with the observable history of its sink.

* `queue` / `queueCap`: the buffered channel `queue chan *bytes.Buffer` of
  capacity `QueueSize`; each element is the byte content of one pooled
  buffer (`bb.Reset()` followed by `bb.Write(b)` makes that content exactly
  the bytes passed to `Write`).
* `errChan` / `errCap`: the buffered channel `errChan chan error`.
* `isClosed`: the atomic flag `isClosed`.
* `written`: the sequence of byte slices the sink's `Write` has received,
  in call order.
* `sinkHasCloser`: whether the sink also implements `io.Closer`.
* `sinkClosed`: whether the sink's `Close` has been invoked. -/
structure AsyncWriter where
  queueCap : Nat
  queue : List Msg
  errCap : Nat
  errChan : List GoError
  isClosed : Bool
  written : List Msg
  sinkHasCloser : Bool
  sinkClosed : Bool
  deriving DecidableEq, Repr

/-- The behaviour of a sink: for each byte slice written, the error the
sink's `Write` returns (`none` for a nil error). -/
def SinkFn : Type := Msg → Option GoError

/-- `AsyncWriter.Write` (`src/async/wrier.go` lines 71-97).  Returns the
`(int, error)` pair and the successor state.  The `for !ok` loop performs at
most one non-blocking receive from `errChan`: if an error is pending it is
consumed and returned with count 0.  Otherwise a pooled buffer is reset,
filled with `b` (`bb.Write` returns `len(b)` and a nil error), and a
non-blocking send on `queue` either enqueues it or reports `ErrQueueFull`. -/
def AsyncWriter.write (w : AsyncWriter) (b : Msg) :
    (Nat × Option GoError) × AsyncWriter :=
  if w.isClosed = false then
    match w.errChan with
    | err :: rest => ((0, some err), { w with errChan := rest })
    | [] =>
      if w.queue.length < w.queueCap then
        ((b.length, none), { w with queue := w.queue ++ [b] })
      else
        ((0, some GoError.errQueueFull), w)
  else
    ((0, some GoError.errClosed), w)

/-- `AsyncWriter.sendIfError` (`src/async/wrier.go` lines 121-128): a nil
error is ignored; a non-nil error is sent to `errChan` without blocking and
dropped when the channel is full. -/
def AsyncWriter.sendIfError (w : AsyncWriter) (e : Option GoError) :
    AsyncWriter :=
  match e with
  | none => w
  | some err =>
    if w.errChan.length < w.errCap then
      { w with errChan := w.errChan ++ [err] }
    else
      w

/-- One sink write performed by the consumer goroutine
(`src/async/wrier.go` lines 107-109 and 163-165): `w.wr.Write(b.Bytes())`
followed by `sendIfError` on its error; the buffer then returns to the
pool. -/
def AsyncWriter.sinkWriteOne (sf : SinkFn) (w : AsyncWriter) (b : Msg) :
    AsyncWriter :=
  AsyncWriter.sendIfError { w with written := w.written ++ [b] } (sf b)

/-- The drain loop of `AsyncWriter.flushQueue` (`src/async/wrier.go` lines
157-170) over the list of buffers still queued: each dequeued buffer is
written to the sink in FIFO order; the loop returns when the receive would
block (queue empty). -/
def AsyncWriter.flushList (sf : SinkFn) : List Msg → AsyncWriter → AsyncWriter
  | [], w => w
  | b :: rest, w => AsyncWriter.flushList sf rest (AsyncWriter.sinkWriteOne sf w b)

/-- `AsyncWriter.flushQueue` (`src/async/wrier.go` lines 157-170): drains
the queue to empty, writing each remaining buffer to the sink in order. -/
def AsyncWriter.flushQueue (sf : SinkFn) (w : AsyncWriter) : AsyncWriter :=
  AsyncWriter.flushList sf w.queue { w with queue := [] }

/-- `AsyncWriter.onClose` (`src/async/wrier.go` lines 143-154): returns
`ErrClosed` when already closed; otherwise marks the writer closed and
flushes the queue.  The branch that would close an `io.Closer` sink (lines
150-152) is commented out in the source, so `sinkClosed` is never set and
the returned `err` stays nil. -/
def AsyncWriter.onClose (sf : SinkFn) (w : AsyncWriter) :
    Option GoError × AsyncWriter :=
  if w.isClosed = true then
    (some GoError.errClosed, w)
  else
    (none, AsyncWriter.flushQueue sf { w with isClosed := true })

/-- `AsyncWriter.Close` (`src/async/wrier.go` lines 135-140): cancels the
consumer's context, waits for the consumer goroutine — which observes
`ctx.Done()` and runs `onClose` (lines 110-113) — and returns nil
unconditionally (the result of `onClose` is discarded by the consumer). -/
def AsyncWriter.close (sf : SinkFn) (w : AsyncWriter) :
    Option GoError × AsyncWriter :=
  (none, (AsyncWriter.onClose sf w).2)

/-- One iteration of the consumer loop `AsyncWriter.writer`
(`src/async/wrier.go` lines 104-115) in which the `select` takes the
`b := <-w.queue` arm: the head buffer is dequeued and written to the sink.
With an empty queue that arm blocks, so the state is unchanged. -/
def AsyncWriter.consumeStep (sf : SinkFn) (w : AsyncWriter) : AsyncWriter :=
  match w.queue with
  | [] => w
  | b :: rest => AsyncWriter.sinkWriteOne sf { w with queue := rest } b

/-- `n` iterations of the consumer loop before it observes cancellation. -/
def AsyncWriter.runConsumer (sf : SinkFn) (w : AsyncWriter) : Nat → AsyncWriter
  | 0 => w
  | n + 1 => AsyncWriter.runConsumer sf (AsyncWriter.consumeStep sf w) n

/-- Association-list lookup standing for Go map indexing `m[k]`; the maps
built by the bus code have one entry per key. -/
def mapLookup {β : Type} : List (String × β) → String → Option β
  | [], _ => none
  | (k2, v) :: rest, k => if k2 = k then some v else mapLookup rest k

/-- Association-list update standing for Go map assignment `m[k] = v`:
replaces the entry when the key is present, adds it otherwise. -/
def mapUpdate {β : Type} : List (String × β) → String → β → List (String × β)
  | [], k, v => [(k, v)]
  | (k2, v2) :: rest, k, v =>
    if k2 = k then (k2, v) :: rest else (k2, v2) :: mapUpdate rest k v

/-- One handler of the message bus (`src/async/bus.go` lines 36-39):
`callback` is the identity of the `reflect.Value` callback, `queue` the
buffered channel `chan []reflect.Value`; an argument list `[]reflect.Value`
is a `List α`. -/
structure msgHandler (α : Type) where
  callback : Nat
  queue : List (List α)
  deriving DecidableEq

/-- The invocation trace of a handler's consumer goroutine
(`src/async/bus.go` lines 85-89): `for args := range h.queue` invokes the
callback exactly once per queued argument list, in FIFO order, so the
eventual invocations are the queue contents in order. -/
def msgHandler.invocations {α : Type} (h : msgHandler α) : List (List α) :=
  h.queue

/-- The `messageBus` (`src/async/bus.go` lines 41-45): per-subscriber queue
capacity and the topic registry `handlers`. -/
structure messageBus (α : Type) where
  handlerQueueSize : Nat
  handlers : List (String × List (msgHandler α))
  deriving DecidableEq

/-- `messageBus.Publish` (`src/async/bus.go` lines 51-65): with no handler
registered under `topic` it returns `ErrNoHandlerFound` and touches no
queue; otherwise `h.queue <- rArgs` sends the argument list to every
handler registered under `topic`.  That send is blocking, so in the
embedding it always completes, appending `args` once to each queue. -/
def messageBus.publish {α : Type} (b : messageBus α) (topic : String)
    (args : List α) : Option GoError × messageBus α :=
  match mapLookup b.handlers topic with
  | some _ =>
    (none, { b with handlers := b.handlers.map (fun p =>
      if p.1 = topic then
        (p.1, p.2.map (fun h => { h with queue := h.queue ++ [args] }))
      else p) })
  | none => (some GoError.errNoHandlerFound, b)

/-- `EventData` (`src/unnamed/part_002` lines 10-13). -/
structure EventData (α : Type) where
  data : α
  topic : String
  deriving DecidableEq

/-- An `EventChannel` (`src/unnamed/part_002` line 22): a buffered channel
of `EventData` with its capacity and pending contents. -/
structure EventChannel (α : Type) where
  cap : Nat
  buf : List (EventData α)
  deriving DecidableEq

/-- A `subscriber` entry (`src/unnamed/part_002` lines 24-27). -/
structure subscriber (α : Type) where
  subscriptionID : Nat
  ch : EventChannel α
  deriving DecidableEq

/-- `eventBusImpl` (`src/unnamed/part_002` lines 30-33): the topic →
subscriber-list registry.  Channel state lives inside each subscriber
entry, so a send on a subscriber's channel is recorded by updating that
entry in place. -/
structure eventBusImpl (α : Type) where
  subscribers : List (String × List (subscriber α))
  deriving DecidableEq

/-- `generateUInt64ID` (`src/unnamed/part_002` lines 110-119): hashes the
concatenation of the string and the decimal rendering of `num` with
CityHash64.  The hash itself lives in the external `go-faster/city`
library, outside this repository, so it is abstracted as the parameter
`hash`; only its determinism matters here. -/
def generateUInt64ID (hash : String → Nat) (str : String) (num : Nat) :
    Nat :=
  hash (str ++ toString num)

/-- The `range sbs` loop of `eventBusImpl.Publish` (`src/unnamed/part_002`
lines 56-63), threading the named-return `err`: each subscriber with room
in its channel receives the event; a full channel drops the event for that
subscriber and overwrites `err` with the queue-full error, and the loop
continues with the remaining subscribers. -/
def publishLoop {α : Type} (topic : String) (ev : EventData α) :
    List (subscriber α) → Option GoError → Option GoError × List (subscriber α)
  | [], err => (err, [])
  | sb :: rest, err =>
    if sb.ch.buf.length < sb.ch.cap then
      let r := publishLoop topic ev rest err
      (r.1, { sb with ch := { sb.ch with buf := sb.ch.buf ++ [ev] } } :: r.2)
    else
      let r := publishLoop topic ev rest (some (GoError.evQueueFull topic))
      (r.1, sb :: r.2)

/-- `eventBusImpl.Publish` (`src/unnamed/part_002` lines 47-67): with no
subscribers under `topic` it returns `ErrNoHandlerFound`; otherwise it
builds the event and runs the non-blocking send loop over the topic's
subscribers, starting with a nil `err`. -/
def eventBusImpl.publish {α : Type} (eb : eventBusImpl α) (topic : String)
    (data : α) : Option GoError × eventBusImpl α :=
  match mapLookup eb.subscribers topic with
  | some sbs =>
    let r := publishLoop topic ⟨data, topic⟩ sbs none
    (r.1, { eb with subscribers := mapUpdate eb.subscribers topic r.2 })
  | none => (some GoError.errNoHandlerFound, eb)

/-- `eventBusImpl.Subscribe` (`src/unnamed/part_002` lines 73-89): the id
is `generateUInt64ID(topic, len(subscribers[topic])+1)` (length 0 when the
topic is absent); the new entry is appended to the topic's list — the
found and not-found branches of the source both amount to appending to the
current (possibly empty) list. -/
def eventBusImpl.subscribe {α : Type} (hash : String → Nat)
    (eb : eventBusImpl α) (topic : String) (ch : EventChannel α) :
    Nat × eventBusImpl α :=
  let cur := (mapLookup eb.subscribers topic).getD []
  let subscriptionID := generateUInt64ID hash topic (cur.length + 1)
  let s : subscriber α := ⟨subscriptionID, ch⟩
  (subscriptionID,
    { eb with subscribers := mapUpdate eb.subscribers topic (cur ++ [s]) })

/-- The removal loop of `eventBusImpl.Unsubscribe` (`src/unnamed/part_002`
lines 98-103): it removes the first entry whose id matches and then
`break`s, so at most one entry is removed. -/
def removeFirstSub {α : Type} (id : Nat) :
    List (subscriber α) → List (subscriber α)
  | [] => []
  | sb :: rest =>
    if sb.subscriptionID = id then rest else sb :: removeFirstSub id rest

/-- `eventBusImpl.Unsubscribe` (`src/unnamed/part_002` lines 94-105): a
no-op when the topic is absent; otherwise removes the first matching
subscriber entry. -/
def eventBusImpl.unsubscribe {α : Type} (eb : eventBusImpl α)
    (topic : String) (id : Nat) : eventBusImpl α :=
  match mapLookup eb.subscribers topic with
  | some sbs =>
    { eb with
      subscribers := mapUpdate eb.subscribers topic (removeFirstSub id sbs) }
  | none => eb

/-- C1: on an open writer with an empty error slot, `Write` enqueues and
returns `(len(data), nil)` when the queue has room, and returns
`(0, ErrQueueFull)` leaving the state untouched when the queue is full. -/
theorem asyncWriter_write_open_empty_err (w : AsyncWriter) (b : Msg)
    (h1 : w.isClosed = false) (h2 : w.errChan = []) :
    (w.queue.length < w.queueCap →
      AsyncWriter.write w b =
        ((b.length, none), { w with queue := w.queue ++ [b] })) ∧
    (w.queueCap ≤ w.queue.length →
      AsyncWriter.write w b = ((0, some GoError.errQueueFull), w)) := by
  constructor
  · intro hlt
    simp [AsyncWriter.write, h1, h2, hlt]
  · intro hge
    simp [AsyncWriter.write, h1, h2, Nat.not_lt.mpr hge]

/-- Witness for C1 at a concrete writer: room case and full case. -/
theorem asyncWriter_write_open_empty_err_witness :
    (AsyncWriter.write ⟨2, [], 2, [], false, [], false, false⟩ [7] =
      (([7].length, none),
        ⟨2, [[7]], 2, [], false, [], false, false⟩)) ∧
    (AsyncWriter.write ⟨1, [[1]], 2, [], false, [], false, false⟩ [7] =
      ((0, some GoError.errQueueFull),
        ⟨1, [[1]], 2, [], false, [], false, false⟩)) := by
  refine ⟨(asyncWriter_write_open_empty_err _ _ rfl rfl).1 (by decide), ?_⟩
  exact (asyncWriter_write_open_empty_err _ _ rfl rfl).2 (by decide)

/-- C2: on an open writer whose error slot holds a pending sink error,
`Write` consumes the oldest pending error and returns it with count 0,
enqueuing nothing — the sink error surfaces on the next `Write` call. -/
theorem asyncWriter_write_pending_error (w : AsyncWriter) (b : Msg)
    (e : GoError) (rest : List GoError)
    (h1 : w.isClosed = false) (h2 : w.errChan = e :: rest) :
    AsyncWriter.write w b = ((0, some e), { w with errChan := rest }) := by
  simp [AsyncWriter.write, h1, h2]

/-- Witness for C2: a pending sink error is returned by the next write. -/
theorem asyncWriter_write_pending_error_witness :
    AsyncWriter.write
        ⟨2, [], 2, [GoError.sinkErr 5], false, [], false, false⟩ [7] =
      ((0, some (GoError.sinkErr 5)),
        ⟨2, [], 2, [], false, [], false, false⟩) :=
  asyncWriter_write_pending_error _ _ _ _ rfl rfl

/-- `sendIfError` only touches the error channel: every other field of the
writer state is preserved. -/
theorem sendIfError_preserves (w : AsyncWriter) (e : Option GoError) :
    (AsyncWriter.sendIfError w e).queue = w.queue ∧
    (AsyncWriter.sendIfError w e).isClosed = w.isClosed ∧
    (AsyncWriter.sendIfError w e).written = w.written ∧
    (AsyncWriter.sendIfError w e).sinkClosed = w.sinkClosed := by
  cases e with
  | none => simp [AsyncWriter.sendIfError]
  | some err =>
    simp only [AsyncWriter.sendIfError]
    split <;> simp

/-- `sinkWriteOne` appends the buffer to the sink history and preserves the
queue, the closed flag and the sink-closed flag. -/
theorem sinkWriteOne_proj (sf : SinkFn) (w : AsyncWriter) (b : Msg) :
    (AsyncWriter.sinkWriteOne sf w b).queue = w.queue ∧
    (AsyncWriter.sinkWriteOne sf w b).isClosed = w.isClosed ∧
    (AsyncWriter.sinkWriteOne sf w b).written = w.written ++ [b] ∧
    (AsyncWriter.sinkWriteOne sf w b).sinkClosed = w.sinkClosed := by
  unfold AsyncWriter.sinkWriteOne
  have h := sendIfError_preserves { w with written := w.written ++ [b] } (sf b)
  exact ⟨h.1, h.2.1, h.2.2.1, h.2.2.2⟩

/-- Draining a list of buffers writes each of them to the sink in order and
preserves the queue, the closed flag and the sink-closed flag. -/
theorem flushList_proj (sf : SinkFn) (l : List Msg) (w : AsyncWriter) :
    (AsyncWriter.flushList sf l w).queue = w.queue ∧
    (AsyncWriter.flushList sf l w).isClosed = w.isClosed ∧
    (AsyncWriter.flushList sf l w).written = w.written ++ l ∧
    (AsyncWriter.flushList sf l w).sinkClosed = w.sinkClosed := by
  induction l generalizing w with
  | nil => simp [AsyncWriter.flushList]
  | cons b rest ih =>
    have h1 := sinkWriteOne_proj sf w b
    have h2 := ih (AsyncWriter.sinkWriteOne sf w b)
    refine ⟨?_, ?_, ?_, ?_⟩
    · rw [AsyncWriter.flushList, h2.1, h1.1]
    · rw [AsyncWriter.flushList, h2.2.1, h1.2.1]
    · rw [AsyncWriter.flushList, h2.2.2.1, h1.2.2.1, List.append_assoc]
      rfl
    · rw [AsyncWriter.flushList, h2.2.2.2, h1.2.2.2]

/-- `flushQueue` empties the queue, appends its contents in order to the
sink history, and preserves the closed and sink-closed flags. -/
theorem flushQueue_proj (sf : SinkFn) (w : AsyncWriter) :
    (AsyncWriter.flushQueue sf w).queue = [] ∧
    (AsyncWriter.flushQueue sf w).isClosed = w.isClosed ∧
    (AsyncWriter.flushQueue sf w).written = w.written ++ w.queue ∧
    (AsyncWriter.flushQueue sf w).sinkClosed = w.sinkClosed := by
  unfold AsyncWriter.flushQueue
  have h := flushList_proj sf w.queue { w with queue := [] }
  simpa using h

/-- `onClose` on an open writer: the writer ends closed with an empty queue,
the sink has received every queued buffer in order, the sink-closed flag is
untouched, and the returned error is nil. -/
theorem onClose_open_proj (sf : SinkFn) (w : AsyncWriter)
    (h : w.isClosed = false) :
    (AsyncWriter.onClose sf w).1 = none ∧
    ((AsyncWriter.onClose sf w).2).isClosed = true ∧
    ((AsyncWriter.onClose sf w).2).queue = [] ∧
    ((AsyncWriter.onClose sf w).2).written = w.written ++ w.queue ∧
    ((AsyncWriter.onClose sf w).2).sinkClosed = w.sinkClosed := by
  have hq := flushQueue_proj sf { w with isClosed := true }
  rw [AsyncWriter.onClose, if_neg (by simp [h])]
  exact ⟨rfl, by simpa using hq.2.1, hq.1, by simpa using hq.2.2.1,
    by simpa using hq.2.2.2⟩

/-- One consumer-loop iteration preserves the closed and sink-closed flags
and moves at most the head of the queue to the sink history, keeping the
concatenation `written ++ queue` intact. -/
theorem consumeStep_proj (sf : SinkFn) (w : AsyncWriter) :
    (AsyncWriter.consumeStep sf w).isClosed = w.isClosed ∧
    (AsyncWriter.consumeStep sf w).written ++
      (AsyncWriter.consumeStep sf w).queue = w.written ++ w.queue ∧
    (AsyncWriter.consumeStep sf w).sinkClosed = w.sinkClosed := by
  unfold AsyncWriter.consumeStep
  cases hq : w.queue with
  | nil => simp [hq]
  | cons b rest =>
    have h := sinkWriteOne_proj sf { w with queue := rest } b
    refine ⟨by simpa using h.2.1, ?_, by simpa using h.2.2.2⟩
    rw [h.2.2.1, h.1]
    simp

/-- Any number of consumer-loop iterations preserves the closed and
sink-closed flags and the concatenation `written ++ queue`. -/
theorem runConsumer_proj (sf : SinkFn) (w : AsyncWriter) (n : Nat) :
    (AsyncWriter.runConsumer sf w n).isClosed = w.isClosed ∧
    (AsyncWriter.runConsumer sf w n).written ++
      (AsyncWriter.runConsumer sf w n).queue = w.written ++ w.queue ∧
    (AsyncWriter.runConsumer sf w n).sinkClosed = w.sinkClosed := by
  induction n generalizing w with
  | zero => simp [AsyncWriter.runConsumer]
  | succ n ih =>
    have h1 := consumeStep_proj sf w
    have h2 := ih (AsyncWriter.consumeStep sf w)
    rw [AsyncWriter.runConsumer]
    exact ⟨h2.1.trans h1.1, h2.2.1.trans h1.2.1, h2.2.2.trans h1.2.2⟩

/-- C4: once the writer is closed (as `onClose` leaves it after `Close`),
every `Write` returns `(0, ErrClosed)` and the state — in particular the
queue and the sink history — is unchanged. -/
theorem asyncWriter_write_after_close (sf : SinkFn) (w : AsyncWriter)
    (b : Msg) (h : w.isClosed = false) :
    ((AsyncWriter.close sf w).2).isClosed = true ∧
    AsyncWriter.write (AsyncWriter.close sf w).2 b =
      ((0, some GoError.errClosed), (AsyncWriter.close sf w).2) := by
  have hclosed : ((AsyncWriter.close sf w).2).isClosed = true :=
    (onClose_open_proj sf w h).2.1
  exact ⟨hclosed, by simp [AsyncWriter.write, hclosed]⟩

/-- Witness for C4: on a concrete writer, after `Close` a write fails with
`ErrClosed` and changes nothing. -/
theorem asyncWriter_write_after_close_witness :
    (((AsyncWriter.close (fun _ => none)
        ⟨2, [[3]], 2, [], false, [], false, false⟩).2).isClosed = true) ∧
    AsyncWriter.write
        (AsyncWriter.close (fun _ => none)
          ⟨2, [[3]], 2, [], false, [], false, false⟩).2 [7] =
      ((0, some GoError.errClosed),
        (AsyncWriter.close (fun _ => none)
          ⟨2, [[3]], 2, [], false, [], false, false⟩).2) :=
  asyncWriter_write_after_close (fun _ => none) _ [7] rfl

/-- C3: however many iterations the consumer loop runs before it observes
cancellation, after `onClose` finishes its drain the sink has received, in
FIFO order, exactly the prior sink history followed by every buffer that
was in the queue, and the queue is empty — no accepted buffer is lost. -/
theorem asyncWriter_drain_fifo_no_loss (sf : SinkFn) (w : AsyncWriter)
    (n : Nat) (h : w.isClosed = false) :
    ((AsyncWriter.onClose sf (AsyncWriter.runConsumer sf w n)).2).written =
      w.written ++ w.queue ∧
    ((AsyncWriter.onClose sf (AsyncWriter.runConsumer sf w n)).2).queue =
      [] := by
  have hr := runConsumer_proj sf w n
  have hc : (AsyncWriter.runConsumer sf w n).isClosed = false :=
    hr.1.trans h
  have ho := onClose_open_proj sf (AsyncWriter.runConsumer sf w n) hc
  exact ⟨ho.2.2.2.1.trans hr.2.1, ho.2.2.1⟩

/-- Witness for C3: two queued buffers survive one consumer iteration plus
the close-time drain and reach the sink in order. -/
theorem asyncWriter_drain_fifo_no_loss_witness :
    ((AsyncWriter.onClose (fun _ => none)
        (AsyncWriter.runConsumer (fun _ => none)
          ⟨3, [[1], [2]], 3, [], false, [[0]], false, false⟩ 1)).2).written =
      [[0], [1], [2]] ∧
    ((AsyncWriter.onClose (fun _ => none)
        (AsyncWriter.runConsumer (fun _ => none)
          ⟨3, [[1], [2]], 3, [], false, [[0]], false, false⟩ 1)).2).queue =
      [] :=
  asyncWriter_drain_fifo_no_loss (fun _ => none)
    ⟨3, [[1], [2]], 3, [], false, [[0]], false, false⟩ 1 rfl

/-- C5 (code bug): on a writer whose sink exposes a close capability, the
shutdown path drains the queue but never invokes the sink's close — the
`io.Closer` branch of `onClose` is commented out in the source, against the
function's own doc comment ("set closed and close the file once") and the
constructor's `io.WriteCloser` requirement. -/
theorem asyncWriter_sink_never_closed :
    (((AsyncWriter.close (fun _ => none)
        ⟨2, [[9]], 2, [], false, [], true, false⟩).2).isClosed = true) ∧
    (((AsyncWriter.close (fun _ => none)
        ⟨2, [[9]], 2, [], false, [], true, false⟩).2).queue = []) ∧
    (((AsyncWriter.close (fun _ => none)
        ⟨2, [[9]], 2, [], false, [], true, false⟩).2).sinkHasCloser =
      true) ∧
    (((AsyncWriter.close (fun _ => none)
        ⟨2, [[9]], 2, [], false, [], true, false⟩).2).sinkClosed =
      false) :=
  ⟨rfl, rfl, rfl, rfl⟩

/-- Counterexample to C6 as stated: the second `Close` on a concrete writer
returns nil, not `ErrClosed` — `Close` discards the consumer's `onClose`
result and returns nil unconditionally. -/
theorem asyncWriter_second_close_returns_nil :
    (AsyncWriter.close (fun _ => none)
        ((AsyncWriter.close (fun _ => none)
          ⟨2, [], 2, [], false, [], false, false⟩).2)).1 = none ∧
    (AsyncWriter.close (fun _ => none)
        ((AsyncWriter.close (fun _ => none)
          ⟨2, [], 2, [], false, [], false, false⟩).2)).1 ≠
      some GoError.errClosed := by
  exact ⟨rfl, by decide⟩

/-- C6 (amended): `Close` returns nil on every call, first or repeated; the
idempotency guard lives in the consumer's `onClose`, which on an
already-closed writer returns `ErrClosed` and leaves the state unchanged. -/
theorem asyncWriter_close_idempotent_amended (sf : SinkFn)
    (w : AsyncWriter) :
    (AsyncWriter.close sf w).1 = none ∧
    (w.isClosed = true →
      AsyncWriter.onClose sf w = (some GoError.errClosed, w)) := by
  refine ⟨rfl, ?_⟩
  intro h
  simp [AsyncWriter.onClose, h]

/-- Witness for the amended C6 on a concrete already-closed writer. -/
theorem asyncWriter_close_idempotent_amended_witness :
    (AsyncWriter.close (fun _ => none)
        ⟨2, [], 2, [], true, [], false, false⟩).1 = none ∧
    AsyncWriter.onClose (fun _ => none)
        ⟨2, [], 2, [], true, [], false, false⟩ =
      (some GoError.errClosed, ⟨2, [], 2, [], true, [], false, false⟩) :=
  ⟨(asyncWriter_close_idempotent_amended (fun _ => none)
      ⟨2, [], 2, [], true, [], false, false⟩).1,
   (asyncWriter_close_idempotent_amended (fun _ => none)
      ⟨2, [], 2, [], true, [], false, false⟩).2 rfl⟩

/-- Counterexample to C7 as stated: with a full error slot, pushing a new
sink error leaves the slot unchanged — the newest error is dropped, the
older pending error is what remains. -/
theorem asyncWriter_error_slot_drops_newest :
    AsyncWriter.sendIfError
        ⟨2, [], 1, [GoError.errInternal], false, [], false, false⟩
        (some (GoError.sinkErr 3)) =
      ⟨2, [], 1, [GoError.errInternal], false, [], false, false⟩ ∧
    GoError.sinkErr 3 ∉
      (AsyncWriter.sendIfError
        ⟨2, [], 1, [GoError.errInternal], false, [], false, false⟩
        (some (GoError.sinkErr 3))).errChan := by
  exact ⟨rfl, by decide⟩

/-- C7 (amended): the consumer's error push never blocks; when the slot has
room the error is appended, and when the slot is full the incoming (newest)
error is dropped while the older pending errors are retained unchanged. -/
theorem asyncWriter_error_slot_policy (w : AsyncWriter) (e : GoError) :
    (w.errChan.length < w.errCap →
      AsyncWriter.sendIfError w (some e) =
        { w with errChan := w.errChan ++ [e] }) ∧
    (w.errCap ≤ w.errChan.length →
      AsyncWriter.sendIfError w (some e) = w) := by
  constructor
  · intro h
    simp [AsyncWriter.sendIfError, h]
  · intro h
    simp [AsyncWriter.sendIfError, Nat.not_lt.mpr h]

/-- Witness for the amended C7: room case and full case on concrete
states. -/
theorem asyncWriter_error_slot_policy_witness :
    (AsyncWriter.sendIfError ⟨2, [], 2, [], false, [], false, false⟩
        (some (GoError.sinkErr 3)) =
      ⟨2, [], 2, [GoError.sinkErr 3], false, [], false, false⟩) ∧
    (AsyncWriter.sendIfError
        ⟨2, [], 1, [GoError.errInternal], false, [], false, false⟩
        (some (GoError.sinkErr 4)) =
      ⟨2, [], 1, [GoError.errInternal], false, [], false, false⟩) :=
  ⟨(asyncWriter_error_slot_policy
      ⟨2, [], 2, [], false, [], false, false⟩ (GoError.sinkErr 3)).1
      (by decide),
   (asyncWriter_error_slot_policy
      ⟨2, [], 1, [GoError.errInternal], false, [], false, false⟩
      (GoError.sinkErr 4)).2 (by decide)⟩

/-- Looking up `k` after mapping the entry at `k` through `f` yields the
mapped value. -/
theorem mapLookup_mapIf {β : Type} (m : List (String × β)) (k : String)
    (f : β → β) :
    mapLookup (m.map (fun p => if p.1 = k then (p.1, f p.2) else p)) k =
      (mapLookup m k).map f := by
  induction m with
  | nil => rfl
  | cons p rest ih =>
    obtain ⟨k2, v⟩ := p
    by_cases hp : k2 = k
    · subst hp
      simp only [List.map_cons]
      rw [if_pos trivial]
      simp [mapLookup]
    · simp only [List.map_cons]
      rw [if_neg hp]
      simp [mapLookup, hp, ih]

/-- Looking up `k` after `mapUpdate m k v` yields `v`. -/
theorem mapLookup_mapUpdate {β : Type} (m : List (String × β)) (k : String)
    (v : β) :
    mapLookup (mapUpdate m k v) k = some v := by
  induction m with
  | nil => simp [mapUpdate, mapLookup]
  | cons p rest ih =>
    obtain ⟨k2, v2⟩ := p
    by_cases hp : k2 = k
    · simp [mapUpdate, mapLookup, hp]
    · simp [mapUpdate, mapLookup, hp, ih]

/-- The event-bus send loop delivers the event to exactly the subscribers
with room, in order, and returns the queue-full error exactly when some
subscriber's channel was full (otherwise the error it started with). -/
theorem publishLoop_spec {α : Type} (topic : String) (ev : EventData α)
    (sbs : List (subscriber α)) (err0 : Option GoError) :
    (publishLoop topic ev sbs err0).2 =
      sbs.map (fun sb =>
        if sb.ch.buf.length < sb.ch.cap then
          { sb with ch := { sb.ch with buf := sb.ch.buf ++ [ev] } }
        else sb) ∧
    (publishLoop topic ev sbs err0).1 =
      (if sbs.any (fun sb => decide (sb.ch.cap ≤ sb.ch.buf.length)) then
        some (GoError.evQueueFull topic)
      else err0) := by
  induction sbs generalizing err0 with
  | nil => simp [publishLoop]
  | cons sb rest ih =>
    by_cases hsb : sb.ch.buf.length < sb.ch.cap
    · have hd : decide (sb.ch.cap ≤ sb.ch.buf.length) = false :=
        decide_eq_false (Nat.not_le.mpr hsb)
      exact ⟨by simp [publishLoop, hsb, (ih err0).1],
        by simp [publishLoop, hsb, (ih err0).2, hd]⟩
    · have hd : decide (sb.ch.cap ≤ sb.ch.buf.length) = true :=
        decide_eq_true (Nat.not_lt.mp hsb)
      exact ⟨by simp [publishLoop, hsb, (ih _).1],
        by simp [publishLoop, hsb,
          (ih (some (GoError.evQueueFull topic))).2, hd]⟩

/-- C8: `Publish` on a topic with no registered handler returns
`ErrNoHandlerFound` without touching any state; on a topic with handlers it
returns nil and appends the argument list exactly once to the queue of
every registered handler, so each handler's consumer eventually invokes its
callback exactly one more time with `args`. -/
theorem messageBus_publish_fanout {α : Type} [DecidableEq α]
    (b : messageBus α) (topic : String) (args : List α) :
    (mapLookup b.handlers topic = none →
      messageBus.publish b topic args =
        (some GoError.errNoHandlerFound, b)) ∧
    (∀ hs, mapLookup b.handlers topic = some hs →
      (messageBus.publish b topic args).1 = none ∧
      mapLookup (messageBus.publish b topic args).2.handlers topic =
        some (hs.map (fun h => { h with queue := h.queue ++ [args] })) ∧
      ∀ h, h ∈ hs →
        (msgHandler.invocations
            { h with queue := h.queue ++ [args] }).count args =
          (msgHandler.invocations h).count args + 1) := by
  constructor
  · intro hnone
    simp [messageBus.publish, hnone]
  · intro hs hsome
    refine ⟨by simp [messageBus.publish, hsome], ?_, ?_⟩
    · have hmap := mapLookup_mapIf b.handlers topic
        (fun l => l.map (fun h => { h with queue := h.queue ++ [args] }))
      simp only [messageBus.publish, hsome]
      simpa [hsome] using hmap
    · intro h hmem
      simp [msgHandler.invocations]

/-- Witness for C8: a bus with one handler under "t"; publishing to "t"
appends the argument list to that handler's queue (invoked once more), and
publishing to the handler-less "t2" on an empty bus fails. -/
theorem messageBus_publish_fanout_witness :
    (messageBus.publish
        (⟨4, [("t", [⟨1, []⟩]), ("u", [⟨2, []⟩])]⟩ : messageBus Nat)
        "t" [5]).1 = none ∧
    mapLookup
        (messageBus.publish
          (⟨4, [("t", [⟨1, []⟩]), ("u", [⟨2, []⟩])]⟩ : messageBus Nat)
          "t" [5]).2.handlers "t" =
      some [⟨1, [[5]]⟩] ∧
    (msgHandler.invocations (⟨1, [[5]]⟩ : msgHandler Nat)).count [5] =
      (msgHandler.invocations (⟨1, []⟩ : msgHandler Nat)).count [5] + 1 ∧
    messageBus.publish (⟨4, []⟩ : messageBus Nat) "t2" [5] =
      (some GoError.errNoHandlerFound, (⟨4, []⟩ : messageBus Nat)) := by
  have h1 := (messageBus_publish_fanout
    (⟨4, [("t", [⟨1, []⟩]), ("u", [⟨2, []⟩])]⟩ : messageBus Nat)
    "t" [5]).2 [⟨1, []⟩] (by decide)
  have h2 := (messageBus_publish_fanout
    (⟨4, []⟩ : messageBus Nat) "t2" [5]).1 (by decide)
  exact ⟨h1.1, h1.2.1, h1.2.2 ⟨1, []⟩ (by decide), h2⟩

/-- C9: event-bus `Publish` on a topic with no subscribers returns
`ErrNoHandlerFound`; otherwise each subscriber in order either receives the
event (channel has room) or has it dropped (channel full), the remaining
subscribers still being served, and the call returns the queue-full error
exactly when some subscriber's channel was full, nil otherwise. -/
theorem eventBus_publish_drop_on_full {α : Type} (eb : eventBusImpl α)
    (topic : String) (data : α) :
    (mapLookup eb.subscribers topic = none →
      eventBusImpl.publish eb topic data =
        (some GoError.errNoHandlerFound, eb)) ∧
    (∀ sbs, mapLookup eb.subscribers topic = some sbs →
      mapLookup
          (eventBusImpl.publish eb topic data).2.subscribers topic =
        some (sbs.map (fun sb =>
          if sb.ch.buf.length < sb.ch.cap then
            { sb with
              ch := { sb.ch with buf := sb.ch.buf ++ [⟨data, topic⟩] } }
          else sb)) ∧
      (eventBusImpl.publish eb topic data).1 =
        (if sbs.any (fun sb => decide (sb.ch.cap ≤ sb.ch.buf.length)) then
          some (GoError.evQueueFull topic)
        else none)) := by
  constructor
  · intro hnone
    simp [eventBusImpl.publish, hnone]
  · intro sbs hsome
    have hl := publishLoop_spec topic (⟨data, topic⟩ : EventData α) sbs none
    constructor
    · simp only [eventBusImpl.publish, hsome]
      rw [mapLookup_mapUpdate, hl.1]
    · simp only [eventBusImpl.publish, hsome]
      exact hl.2

/-- Witness for C9: under topic "t", the first subscriber's channel (cap 1)
is full, the second (cap 2) has room; `Publish` drops for the first, still
delivers to the second, and reports the queue-full error.  On an empty bus
it reports `ErrNoHandlerFound`. -/
theorem eventBus_publish_drop_on_full_witness :
    mapLookup
        (eventBusImpl.publish
          (⟨[("t", [⟨1, ⟨1, [⟨0, "t"⟩]⟩⟩, ⟨2, ⟨2, []⟩⟩])]⟩ :
            eventBusImpl Nat)
          "t" 5).2.subscribers "t" =
      some [⟨1, ⟨1, [⟨0, "t"⟩]⟩⟩, ⟨2, ⟨2, [⟨5, "t"⟩]⟩⟩] ∧
    (eventBusImpl.publish
        (⟨[("t", [⟨1, ⟨1, [⟨0, "t"⟩]⟩⟩, ⟨2, ⟨2, []⟩⟩])]⟩ :
          eventBusImpl Nat)
        "t" 5).1 = some (GoError.evQueueFull "t") ∧
    eventBusImpl.publish (⟨[]⟩ : eventBusImpl Nat) "t" 5 =
      (some GoError.errNoHandlerFound, (⟨[]⟩ : eventBusImpl Nat)) := by
  have h := (eventBus_publish_drop_on_full
    (⟨[("t", [⟨1, ⟨1, [⟨0, "t"⟩]⟩⟩, ⟨2, ⟨2, []⟩⟩])]⟩ : eventBusImpl Nat)
    "t" 5).2 [⟨1, ⟨1, [⟨0, "t"⟩]⟩⟩, ⟨2, ⟨2, []⟩⟩] (by decide)
  have h0 := (eventBus_publish_drop_on_full
    (⟨[]⟩ : eventBusImpl Nat) "t" 5).1 (by decide)
  refine ⟨?_, ?_, h0⟩
  · rw [h.1]
    decide
  · rw [h.2]
    decide

/-- C10: subscription ids are the deterministic hash of the topic and the
current subscriber count plus one, so after two subscriptions to a topic,
unsubscribing the first and subscribing again yields an id equal to that of
the still-registered second subscriber; unsubscribing that id then removes
only the first of the two matching entries. -/
theorem eventBus_subscribe_id_collision {α : Type} (hash : String → Nat)
    (topic : String) (ch1 ch2 ch3 : EventChannel α) :
    let eb0 : eventBusImpl α := ⟨[]⟩
    let r1 := eventBusImpl.subscribe hash eb0 topic ch1
    let r2 := eventBusImpl.subscribe hash r1.2 topic ch2
    let eb3 := eventBusImpl.unsubscribe r2.2 topic r1.1
    let r3 := eventBusImpl.subscribe hash eb3 topic ch3
    r1.1 = generateUInt64ID hash topic 1 ∧
    r2.1 = generateUInt64ID hash topic 2 ∧
    r3.1 = r2.1 ∧
    mapLookup eb3.subscribers topic = some [⟨r2.1, ch2⟩] ∧
    mapLookup r3.2.subscribers topic =
      some [⟨r2.1, ch2⟩, ⟨r2.1, ch3⟩] ∧
    mapLookup
        (eventBusImpl.unsubscribe r3.2 topic r3.1).subscribers topic =
      some [⟨r2.1, ch3⟩] := by
  simp [eventBusImpl.subscribe, eventBusImpl.unsubscribe,
    generateUInt64ID, mapLookup, mapUpdate, removeFirstSub]

/-- Counterexample to C9 as stated: `Unsubscribe` removes the subscriber
entry but never deletes the topic key, so after `Subscribe("t", ch)`
followed by `Unsubscribe("t", id)` the registry holds `"t" ↦ []` — a
reachable state with no subscribers — and `Publish` takes the found
branch, iterates zero subscribers, and returns nil, not
`ErrNoHandlerFound`. -/
theorem eventBus_publish_empty_topic_returns_nil :
    let r1 := eventBusImpl.subscribe (fun _ => 0)
      (⟨[]⟩ : eventBusImpl Nat) "t" ⟨1, []⟩
    let eb2 := eventBusImpl.unsubscribe r1.2 "t" r1.1
    mapLookup eb2.subscribers "t" = some [] ∧
    (eventBusImpl.publish eb2 "t" 5).1 = none ∧
    (eventBusImpl.publish eb2 "t" 5).1 ≠ some GoError.errNoHandlerFound :=
  ⟨rfl, rfl, by decide⟩
